import Mathlib

/-!
Verification of the hedging formulas, scenario generation, basis-convergence
simulation and quiz scoring of the Futures Trading and Hedging Lab
(src/app.py).  All numeric code in the app is plain real arithmetic on
Python/numpy floats; it is embedded here over the rationals, which carry the
arithmetic exactly.
-/

/-- Embedding of `np.linspace(a, b, n)` (endpoint=True, the default used
everywhere in src/app.py): `n` evenly spaced values from `a` to `b`
inclusive. -/
def linspace (a b : ℚ) (n : ℕ) : List ℚ :=
  (List.range n).map (fun i : ℕ => a + (i : ℚ) * (b - a) / ((n : ℚ) - 1))

/-- `optimal_contracts = (beta * V) / (F * size)` — src/app.py line 179, and
identically `N=(beta*V)/(F*50)` at line 241. -/
def optimal_contracts (beta V F size : ℚ) : ℚ :=
  (beta * V) / (F * size)

/-- The three hedge types offered by the radio control at
src/app.py lines 183-186. -/
inductive HedgeType
  | optimalHedge
  | underHedge
  | overHedge
deriving DecidableEq

/-- The `if/elif/else` ladder at src/app.py lines 188-193 selecting the
contract count from the optimal one. -/
def contracts (optimal : ℚ) : HedgeType → ℚ
  | HedgeType.optimalHedge => optimal
  | HedgeType.underHedge => optimal * (1/2)
  | HedgeType.overHedge => optimal * (3/2)

/-- `portfolio = V * beta * moves` — src/app.py line 200 (numpy broadcasts
over the moves array, embedded as a map over the list). -/
def portfolio (V beta : ℚ) (moves : List ℚ) : List ℚ :=
  moves.map (fun m => V * beta * m)

/-- `futures = -contracts * size * F * moves` — src/app.py line 201. -/
def futures (c size F : ℚ) (moves : List ℚ) : List ℚ :=
  moves.map (fun m => -c * size * F * m)

/-- `net = portfolio + futures` — src/app.py line 202 (elementwise numpy
addition, embedded as zipWith). -/
def net (V beta c size F : ℚ) (moves : List ℚ) : List ℚ :=
  List.zipWith (· + ·) (portfolio V beta moves) (futures c size F moves)

/-- The market structure radio of the Basis and Convergence panel,
src/app.py lines 257-261. -/
inductive MarketStructure
  | contango
  | backwardation
deriving DecidableEq

/-- The `if market_type == "Contango (F > S)" ... else ...` branch at
src/app.py lines 268-271: both arms compute `np.linspace(basis, 0, days)`. -/
def basis_path (mt : MarketStructure) (basis : ℚ) (days : ℕ) : List ℚ :=
  match mt with
  | MarketStructure.contango => linspace basis 0 days
  | MarketStructure.backwardation => linspace basis 0 days

/-- `corr*100`, the hedge-effectiveness metric of the Basis Risk panel,
src/app.py line 327. -/
def effectiveness (corr : ℚ) : ℚ := corr * 100

/-- The ten quiz answers of src/app.py lines 645-654: six radio (string)
answers and four numeric answers. -/
structure QuizAnswers where
  q1 : String
  q2 : String
  q3 : ℚ
  q4 : ℚ
  q5 : ℚ
  q6 : String
  q7 : String
  q8 : String
  q9 : String
  q10 : ℚ

/-- The score accumulation at src/app.py lines 663-673: one point per
correct answer. -/
def quizScore (a : QuizAnswers) : ℕ :=
  (if a.q1 = "Short" then 1 else 0) +
  (if a.q2 = "Zero" then 1 else 0) +
  (if |a.q3 - 110| < 1 then 1 else 0) +
  (if |a.q4 - 500| < 1 then 1 else 0) +
  (if |a.q5 - 1| < 1/2 then 1 else 0) +
  (if a.q6 = "Credit risk" then 1 else 0) +
  (if a.q7 = "Contango" then 1 else 0) +
  (if a.q8 = "High" then 1 else 0) +
  (if a.q9 = "Close & reopen" then 1 else 0) +
  (if |a.q10 - 200| < 1 then 1 else 0)

/-- The certificate gate `if score >= 5 and student_name and student_id`
at src/app.py line 701 (a Python string is truthy exactly when
non-empty). -/
def certificateGenerated (a : QuizAnswers) (sname sid : String) : Bool :=
  decide (5 ≤ quizScore a) && (sname != "") && (sid != "")

/-- The whole Hedging Strategy Builder computation, src/app.py lines
173-202, as one function of the panel inputs.  Python float division
raises ZeroDivisionError exactly when the divisor is zero, embedded as
`none`; every other input flows straight into the formulas — the panel
performs no input-domain validation.  Returns (contract count, unhedged,
futures, net P&L series). -/
def hedgingBuilderRun (V beta F : ℚ) (h : HedgeType) :
    Option (ℚ × List ℚ × List ℚ × List ℚ) :=
  if F * 50 = 0 then none
  else
    let c := contracts (optimal_contracts beta V F 50) h
    let moves := linspace (-(1/10)) (1/10) 20
    some (c, portfolio V beta moves, futures c 50 F moves,
      net V beta c 50 F moves)

/-- Elementwise addition of two maps over the same list is a single map:
the numpy expression `portfolio + futures` on arrays built from the same
`moves` array. -/
theorem zipWith_add_map (f g : ℚ → ℚ) (l : List ℚ) :
    List.zipWith (· + ·) (l.map f) (l.map g) = l.map (fun m => f m + g m) := by
  induction l with
  | nil => rfl
  | cons x xs ih => simp [ih]

/-- Claim C1: `optimal_contracts` returns `(beta * V) / (F * size)`; with
sensitivity coefficient 1 and positive price, multiplier and notional, the
result times price times multiplier gives back the notional exactly. -/
theorem optimal_contracts_inverts_notional (V F size : ℚ)
    (hV : 0 < V) (hF : 0 < F) (hs : 0 < size) :
    optimal_contracts 1 V F size = 1 * V / (F * size) ∧
    optimal_contracts 1 V F size * F * size = V := by
  refine ⟨rfl, ?_⟩
  unfold optimal_contracts
  field_simp
  ring

/-- Witness for C1 at the worked example of the spec: V = 5000000,
F = 22000, size = 50. -/
theorem optimal_contracts_inverts_notional_witness :
    (0 : ℚ) < 5000000 ∧ (0 : ℚ) < 22000 ∧ (0 : ℚ) < 50 ∧
    optimal_contracts 1 5000000 22000 50 * 22000 * 50 = 5000000 :=
  ⟨by norm_num, by norm_num, by norm_num,
    (optimal_contracts_inverts_notional 5000000 22000 50
      (by norm_num) (by norm_num) (by norm_num)).2⟩

/-- The value of `linspace` at any in-range index. -/
theorem linspace_getElem? (a b : ℚ) (n i : ℕ) (h : i < n) :
    (linspace a b n)[i]? = some (a + (i : ℚ) * (b - a) / ((n : ℚ) - 1)) := by
  rw [linspace, List.getElem?_map, List.getElem?_range h, Option.map_some']

/-- Claim C2: the P&L series compute, move by move,
unhedged = V * beta * m, futures = -contracts * size * F * m and
net = unhedged + futures, with all three sequences aligned by index and of
the same length as the scenario. -/
theorem pnl_series_spec (V beta c size F : ℚ) (moves : List ℚ) :
    (portfolio V beta moves).length = moves.length ∧
    (futures c size F moves).length = moves.length ∧
    (net V beta c size F moves).length = moves.length ∧
    ∀ (i : ℕ) (m : ℚ), moves[i]? = some m →
      (portfolio V beta moves)[i]? = some (V * beta * m) ∧
      (futures c size F moves)[i]? = some (-c * size * F * m) ∧
      (net V beta c size F moves)[i]?
        = some (V * beta * m + -c * size * F * m) := by
  refine ⟨by simp [portfolio], by simp [futures],
    by simp [net, portfolio, futures, zipWith_add_map], ?_⟩
  intro i m hm
  refine ⟨?_, ?_, ?_⟩ <;>
    simp [portfolio, futures, net, zipWith_add_map, List.getElem?_map, hm]

/-- Witness for C2 on the one-move scenario [1]. -/
theorem pnl_series_spec_witness :
    (([(1 : ℚ)] : List ℚ)[0]? = some (1 : ℚ)) ∧
    (net 2 3 5 7 11 [(1 : ℚ)])[0]?
      = some ((2 : ℚ) * 3 * 1 + -5 * 7 * 11 * 1) :=
  ⟨rfl, ((pnl_series_spec 2 3 5 7 11 [1]).2.2.2 0 1 rfl).2.2⟩

/-- Claim C3: with the contract count set to the optimal value, the net
P&L is flat — its absolute value never exceeds the unhedged absolute value
at any index of the scenario. -/
theorem optimal_hedge_flattens (V beta F size : ℚ) (hF : 0 < F)
    (hs : 0 < size) (moves : List ℚ) (i : ℕ) (n u : ℚ)
    (hn : (net V beta (optimal_contracts beta V F size) size F moves)[i]?
      = some n)
    (hu : (portfolio V beta moves)[i]? = some u) :
    |n| ≤ |u| := by
  have hF0 : F ≠ 0 := hF.ne'
  have hs0 : size ≠ 0 := hs.ne'
  have hzero : ∀ m : ℚ,
      V * beta * m + -(optimal_contracts beta V F size) * size * F * m = 0 := by
    intro m
    unfold optimal_contracts
    field_simp
    ring
  unfold net portfolio futures at hn
  rw [zipWith_add_map, List.getElem?_map] at hn
  obtain ⟨m, hmi, hval⟩ := Option.map_eq_some'.mp hn
  have hn0 : n = 0 := by
    rw [← hval]
    simpa using hzero m
  rw [hn0]
  simpa using abs_nonneg u

/-- Witness for C3: V = 100, beta = 1, F = 2, size = 5, single move 1;
the optimal count is 10, net P&L is 0 and unhedged P&L is 100. -/
theorem optimal_hedge_flattens_witness : |(0 : ℚ)| ≤ |(100 : ℚ)| :=
  optimal_hedge_flattens 100 1 2 5 (by norm_num) (by norm_num) [1] 0 0 100
    (by norm_num [net, portfolio, futures, optimal_contracts])
    (by norm_num [portfolio])

/-- Claim C4: wherever the scenario holds the zero move, all three P&L
values are exactly 0 at that index. -/
theorem pnl_zero_at_zero_move (V beta c size F : ℚ) (moves : List ℚ)
    (i : ℕ) (h : moves[i]? = some 0) :
    (portfolio V beta moves)[i]? = some 0 ∧
    (futures c size F moves)[i]? = some 0 ∧
    (net V beta c size F moves)[i]? = some 0 := by
  refine ⟨?_, ?_, ?_⟩ <;>
    simp [portfolio, futures, net, zipWith_add_map, List.getElem?_map, h]

/-- Witness for C4 on the scenario [0] at index 0. -/
theorem pnl_zero_at_zero_move_witness :
    (([(0 : ℚ)] : List ℚ)[0]? = some (0 : ℚ)) ∧
    (net 1 1 1 1 1 [(0 : ℚ)])[0]? = some (0 : ℚ) :=
  ⟨rfl, (pnl_zero_at_zero_move 1 1 1 1 1 [0] 0 rfl).2.2⟩

/-- Claim C7: with at least two points, the generated scenario has exactly
`n` points, starts at the low fraction, ends at the high fraction, has a
constant step of (high - low)/(n - 1); concretely
linspace(-0.1, 0.1, 3) = [-0.1, 0, 0.1] and the net P&L at index 1 of that
scenario is 0. -/
theorem linspace_scenario_spec (a b : ℚ) (n : ℕ) (h2 : 2 ≤ n) :
    (linspace a b n).length = n ∧
    (linspace a b n)[0]? = some a ∧
    (linspace a b n)[n - 1]? = some b ∧
    (∀ i x y, (linspace a b n)[i]? = some x →
      (linspace a b n)[i + 1]? = some y →
      y - x = (b - a) / ((n : ℚ) - 1)) ∧
    linspace (-(1/10)) (1/10) 3 = [-(1/10), 0, 1/10] ∧
    ∀ V beta c size F : ℚ,
      (net V beta c size F (linspace (-(1/10)) (1/10) 3))[1]? = some 0 := by
  have h1 : 1 ≤ n := le_trans (by norm_num) h2
  have hd : ((n : ℚ) - 1) ≠ 0 := by
    have hcast : (2 : ℚ) ≤ (n : ℚ) := by exact_mod_cast h2
    linarith
  have hlen : (linspace a b n).length = n := by
    rw [linspace, List.length_map, List.length_range]
  have hconc : linspace (-(1/10)) (1/10) 3 = [-(1/10), 0, 1/10] := by
    simp [linspace, List.range_succ]
    norm_num
  refine ⟨hlen, ?_, ?_, ?_, hconc, ?_⟩
  · rw [linspace_getElem? a b n 0 (by omega)]
    norm_num
  · rw [linspace_getElem? a b n (n - 1) (by omega)]
    rw [Nat.cast_sub h1]
    field_simp
  · intro i x y hx hy
    have hi1 : i + 1 < n := by
      by_contra hcon
      rw [List.getElem?_eq_none (by omega : (linspace a b n).length ≤ i + 1)]
        at hy
      exact Option.noConfusion hy
    rw [linspace_getElem? a b n i (by omega)] at hx
    rw [linspace_getElem? a b n (i + 1) hi1] at hy
    have hx2 := Option.some_inj.mp hx
    have hy2 := Option.some_inj.mp hy
    rw [← hx2, ← hy2]
    push_cast
    ring
  · intro V beta c size F
    rw [hconc]
    simp [net, portfolio, futures]

/-- Witness for C7 at n = 3. -/
theorem linspace_scenario_spec_witness :
    2 ≤ 3 ∧ (linspace (-(1/10)) (1/10) 3).length = 3 :=
  ⟨by norm_num, (linspace_scenario_spec (-(1/10)) (1/10) 3 (by norm_num)).1⟩

/-- Claim C8 fails on the code: the futures price -1 is an invalid-domain
input (non-positive price), yet the Hedging Strategy Builder performs no
validation — the computation runs to completion and produces a result
instead of a rejection. -/
theorem invalid_price_not_rejected :
    (hedgingBuilderRun 5000000 1 (-1) HedgeType.optimalHedge).isSome
      = true := by
  rw [hedgingBuilderRun, if_neg (by norm_num)]
  rfl

/-- Amended C8: the panel has no input-domain validation; every nonzero
price — non-positive ones included — flows into the computation and yields
results, and a zero price fails only at the division itself, producing
nothing. -/
theorem hedging_builder_no_validation (V beta F : ℚ) (h : HedgeType)
    (hF : F ≠ 0) :
    (hedgingBuilderRun V beta F h).isSome = true ∧
    hedgingBuilderRun V beta 0 h = none := by
  constructor
  · rw [hedgingBuilderRun, if_neg (by simp [mul_eq_zero, hF])]
    rfl
  · rw [hedgingBuilderRun, if_pos (by norm_num)]

/-- Witness for the amended C8 at the negative price -1. -/
theorem hedging_builder_no_validation_witness :
    (-1 : ℚ) ≠ 0 ∧
    (hedgingBuilderRun 5000000 1 (-2) HedgeType.underHedge).isSome = true :=
  ⟨by norm_num,
    (hedging_builder_no_validation 5000000 1 (-2) HedgeType.underHedge
      (by norm_num)).1⟩

/-- Claim C5: the hedge-ratio ladder scales the optimal contract count by
exactly 1, 1/2 and 3/2 in optimal, under and over mode, so the under result
is half the optimal-mode result and the over result is 1.5 times it. -/
theorem contracts_ratio_policy (optimal : ℚ) :
    contracts optimal HedgeType.optimalHedge = 1 * optimal ∧
    contracts optimal HedgeType.underHedge = (1/2) * optimal ∧
    contracts optimal HedgeType.overHedge = (3/2) * optimal ∧
    contracts optimal HedgeType.underHedge
      = (1/2) * contracts optimal HedgeType.optimalHedge ∧
    contracts optimal HedgeType.overHedge
      = (3/2) * contracts optimal HedgeType.optimalHedge := by
  refine ⟨?_, ?_, ?_, ?_, ?_⟩ <;> simp [contracts] <;> ring

/-- Claim C6: hedge effectiveness is the linear map corr * 100: it sends 0
to 0, 1 to 100, and is strictly monotone in between. -/
theorem effectiveness_linear :
    effectiveness 0 = 0 ∧ effectiveness 1 = 100 ∧
    ∀ x y : ℚ, x < y → effectiveness x < effectiveness y := by
  refine ⟨by norm_num [effectiveness], by norm_num [effectiveness], ?_⟩
  intro x y hxy
  unfold effectiveness
  linarith

/-- Witness for C6, instantiating monotonicity at 1/4 < 1/2. -/
theorem effectiveness_linear_witness :
    (1/4 : ℚ) < 1/2 ∧ effectiveness (1/4) < effectiveness (1/2) :=
  ⟨by norm_num, effectiveness_linear.2.2 (1/4) (1/2) (by norm_num)⟩

/-- Claim C9: the basis-convergence path is the same for the contango and
backwardation selections — both produce the evenly spaced path from the
current basis to 0, so the market-structure choice never affects the
output. -/
theorem basis_path_ignores_market_structure (mt mt2 : MarketStructure)
    (b : ℚ) (days : ℕ) :
    basis_path mt b days = basis_path mt2 b days ∧
    basis_path mt b days = linspace b 0 days := by
  cases mt <;> cases mt2 <;> exact ⟨rfl, rfl⟩

/-- Claim C10: the quiz score is at most 10 (each question adds at most one
point to a count starting at 0), and the certificate is generated exactly
when the score is at least 5 and both the student name and id are
non-empty. -/
theorem quiz_score_bound_and_certificate_gate (a : QuizAnswers)
    (sname sid : String) :
    quizScore a ≤ 10 ∧
    (certificateGenerated a sname sid = true ↔
      (5 ≤ quizScore a ∧ sname ≠ "" ∧ sid ≠ "")) := by
  constructor
  · have h : ∀ (c : Prop) [Decidable c], (if c then 1 else 0 : ℕ) ≤ 1 := by
      intro c inst
      split <;> norm_num
    unfold quizScore
    exact le_trans
      (add_le_add (add_le_add (add_le_add (add_le_add (add_le_add
        (add_le_add (add_le_add (add_le_add (add_le_add
          (h _) (h _)) (h _)) (h _)) (h _)) (h _)) (h _)) (h _)) (h _))
        (h _))
      (by norm_num)
  · simp only [certificateGenerated, Bool.and_eq_true, decide_eq_true_eq,
      bne_iff_ne, ne_eq]
    tauto
